import Mathlib

/-!
Verification development for the PostgreSQL → ClickHouse replication daemon
(`sync_daemon.py`, `src/db/clickhouse.py`, `src/etl/sync.py`).

The embedding models a database value as an inductive `Value`:
`vNull` is Python `None`, `vStr` a string, `vNum` a numeric magnitude
(int / float / Decimal collapsed to an exact rational), `vDatetime` a
timestamp with an optional timezone offset (`none` = naive), and `vDict`
a JSON-object field.  Rows are lists of `Value` aligned with the fixed
column list; the ClickHouse table is the list of row versions inserted so
far (a ReplacingMergeTree keeps every version until compaction, which we
model as keeping the last version per key).  Fallible Python conversions
(`float(...)`, `int(...)` raising `ValueError`/`TypeError`) are modelled
with `Option` results, and code paths that can raise return `PyRes`.
-/

/-- Tests whether the first character list is an initial segment of the
second; used to model Python's substring operator. -/
def leadsWith : List Char → List Char → Bool
  | [], _ => true
  | _ :: _, [] => false
  | a :: as, b :: bs => a = b && leadsWith as bs

/-- Tests whether `needle` occurs contiguously inside the second list. -/
def containsSeq (needle : List Char) : List Char → Bool
  | [] => needle = []
  | c :: cs => leadsWith needle (c :: cs) || containsSeq needle cs

/-- Model of Python's `needle in hay` substring test on strings. -/
def strIn (needle hay : String) : Bool := containsSeq needle.toList hay.toList

/-- Numeric value of a decimal digit character, if it is one. -/
def digitVal (c : Char) : Option Nat :=
  if '0' ≤ c ∧ c ≤ '9' then some (c.toNat - '0'.toNat) else none

/-- Parses a nonempty all-digit character list to a natural number. -/
def parseDigits : List Char → Option Nat
  | [] => none
  | [c] => digitVal c
  | c :: cs => match digitVal c, parseDigits cs with
    | some d, some n => some (d * 10 ^ cs.length + n)
    | _, _ => none

/-- Parses an optionally signed digit string, modelling Python `int(str)`:
succeeds exactly on integer literals, raises (`none`) otherwise. -/
def strToInt (s : String) : Option Int :=
  match s.toList with
  | '-' :: rest => (parseDigits rest).map (fun n => -(n : Int))
  | cs => (parseDigits cs).map (fun n => (n : Int))

/-- Parses an unsigned decimal literal (`digits` or `digits.digits`) to an
exact rational; models the success set of Python `float(str)` on the
literal forms the data uses (an unparsable string means `float` raises). -/
def floatOfCharsPos (cs : List Char) : Option Rat :=
  let intPart := cs.takeWhile (· ≠ '.')
  match cs.dropWhile (· ≠ '.') with
  | [] => (parseDigits intPart).map (fun n => (n : Rat))
  | '.' :: frac =>
      match parseDigits intPart, parseDigits frac with
      | some n, some f => some ((n : Rat) + (f : Rat) / ((10 : Rat) ^ frac.length))
      | _, _ => none
  | _ => none

/-- Parses an optionally signed decimal literal, modelling Python
`float(str)`. -/
def floatOfString (s : String) : Option Rat :=
  match s.toList with
  | '-' :: rest => (floatOfCharsPos rest).map Neg.neg
  | cs => floatOfCharsPos cs

/-- Result of a Python code path that may raise an uncaught exception:
either a value, or `raised` for an exception propagating to the caller. -/
inductive PyRes (α : Type) where
  | ok : α → PyRes α
  | raised : PyRes α
deriving DecidableEq

/-- Database / JSON value as seen by the daemon. -/
inductive Value where
  | vNull : Value
  | vStr : String → Value
  | vNum : Rat → Value
  | vDatetime : Int → Option Int → Value
  | vDict : List (String × String) → Value
deriving DecidableEq

/-- Model of Python `float(value)`: numbers (int, float, Decimal) convert
exactly, strings convert when they are numeric literals, and everything
else (`None`, datetime, dict) raises, i.e. returns `none`. -/
def pythonFloat : Value → Option Rat
  | .vNum q => some q
  | .vStr s => floatOfString s
  | _ => none

/-- Model of Python `int(value)`: numbers truncate toward zero, strings
convert when they are integer literals, everything else raises. -/
def pythonInt : Value → Option Int
  | .vNum q => some (q.num.tdiv (q.den : Int))
  | .vStr s => strToInt s
  | _ => none

/-- Model of Python truthiness (`if value:`) on the embedded values. -/
def truthy : Value → Bool
  | .vNull => false
  | .vStr s => if s = "" then false else true
  | .vNum q => if q = 0 then false else true
  | .vDatetime _ _ => true
  | .vDict fields => if fields = [] then false else true

/-- Rendering of a value as a string for text columns (`str(value)`).
Faithful on strings; the rendering of non-string scalars is abstracted to
a fixed form, which no verified property observes. -/
def pythonStr : Value → String
  | .vNull => "None"
  | .vStr s => s
  | .vNum _ => "number"
  | .vDatetime _ _ => "datetime"
  | .vDict _ => "dict"

/-- Rendering of a dict value (`json.dumps(value)`); the exact text is
abstracted, no verified property observes it. -/
def dumpsDict (fields : List (String × String)) : String :=
  "\x7b" ++ String.intercalate ", " (fields.map (fun p => p.1 ++ ": " ++ p.2)) ++ "\x7d"

/-- Column list shared verbatim by `sync_daemon.SYNC_COLUMNS` and the
`columns` list inside `ClickHouseDB.insert_projects` (the two Python
listings are character-for-character identical, 69 names). -/
def SYNC_COLUMNS : List String := [
  "id_root", "klaster_regional", "entitas_terminal", "id_investasi", "project_definition",
  "asset_categories", "type_investasi", "tahun_usulan", "tahun_rkap", "status_investasi",
  "progres_description", "issue_categories", "issue_description", "action_target",
  "head_office_support_desc", "pic", "status_issue",
  "kebutuhan_dana", "rkap",
  "rkap_januari", "rkap_februari", "rkap_maret", "rkap_april",
  "rkap_mei", "rkap_juni", "rkap_juli", "rkap_agustus",
  "rkap_september", "rkap_oktober", "rkap_november", "rkap_desember",
  "judul_kontrak", "nilai_kontrak", "penyerapan_sd_tahun_lalu", "penyedia_jasa",
  "no_kontrak", "tanggal_kontrak", "tgl_mulai_kontrak", "jangka_waktu", "satuan_hari", "tanggal_selesai",
  "realisasi_januari", "realisasi_februari", "realisasi_maret", "realisasi_april",
  "realisasi_mei", "realisasi_juni", "realisasi_juli", "realisasi_agustus",
  "realisasi_september", "realisasi_oktober", "realisasi_november", "realisasi_desember",
  "prognosa_januari", "prognosa_februari", "prognosa_maret", "prognosa_april",
  "prognosa_mei", "prognosa_juni", "prognosa_juli", "prognosa_agustus",
  "prognosa_september", "prognosa_oktober", "prognosa_november", "prognosa_sd_desember",
  "latitude", "longitude", "created_at", "updated_at"]

/-- Decimal / numeric column list from `sync_daemon.convert_value`. -/
def DECIMAL_COLUMNS : List String := [
  "kebutuhan_dana", "rkap", "nilai_kontrak", "penyerapan_sd_tahun_lalu",
  "rkap_januari", "rkap_februari", "rkap_maret", "rkap_april",
  "rkap_mei", "rkap_juni", "rkap_juli", "rkap_agustus",
  "rkap_september", "rkap_oktober", "rkap_november", "rkap_desember",
  "realisasi_januari", "realisasi_februari", "realisasi_maret", "realisasi_april",
  "realisasi_mei", "realisasi_juni", "realisasi_juli", "realisasi_agustus",
  "realisasi_september", "realisasi_oktober", "realisasi_november", "realisasi_desember",
  "prognosa_januari", "prognosa_februari", "prognosa_maret", "prognosa_april",
  "prognosa_mei", "prognosa_juni", "prognosa_juli", "prognosa_agustus",
  "prognosa_september", "prognosa_oktober", "prognosa_november", "prognosa_sd_desember"]

/-- Embedding of `sync_daemon.convert_value(value, column_name)`: the
streaming-path type adapter from PostgreSQL values to ClickHouse-ready
values. -/
def convert_value (value : Value) (column_name : String) : Value :=
  if column_name = "type_investasi" then
    if value = .vNull ∨ value = .vStr "" then .vStr "Murni" else value
  else if column_name = "status_issue" then
    if value = .vNull ∨ value = .vStr "" then .vStr "Open" else value
  else if column_name ∈ DECIMAL_COLUMNS then
    if value = .vNull then .vNum 0
    else
      match pythonFloat value with
      | some q => .vNum q
      | none => .vNum 0
  else if value = .vNull then
    if column_name ∈ ["tanggal_kontrak", "tgl_mulai_kontrak", "tanggal_selesai",
        "latitude", "longitude"] then .vNull
    else if column_name ∈ ["tahun_usulan", "tahun_rkap", "jangka_waktu"] then .vNum 0
    else if column_name ∈ ["created_at", "updated_at"] then .vNull
    else .vStr ""
  else
    match value with
    | .vNum q => .vNum q
    | .vDatetime t tz => .vDatetime t tz
    | .vDict fields => .vStr (dumpsDict fields)
    | v => v

/-- The `'rkap_' in col or 'realisasi_' in col or 'prognosa_' in col or
col in (...)` numeric-column condition of `ClickHouseDB.insert_projects`. -/
def chNumericCond (col : String) : Bool :=
  strIn "rkap_" col || strIn "realisasi_" col || strIn "prognosa_" col ||
    (col = "kebutuhan_dana" || col = "rkap" || col = "nilai_kontrak" ||
      col = "penyerapan_sd_tahun_lalu")

/-- Embedding of the per-column conversion chain of
`ClickHouseDB.insert_projects` (the bulk-path type adapter).  An
uncaught Python exception from `int(...)` / `float(...)` is the
`raised` case. -/
def chInsertConvert (col : String) (value : Value) : PyRes Value :=
  if col = "type_investasi" then
    .ok (if value = .vStr "Murni" ∨ value = .vStr "Multi Year" ∨
      value = .vStr "Carry Forward" then value else .vStr "Murni")
  else if col = "status_issue" then
    .ok (if value = .vStr "Open" ∨ value = .vStr "Closed" then value else .vStr "Open")
  else if col = "tahun_usulan" ∨ col = "tahun_rkap" then
    if truthy value then
      match pythonInt value with
      | some n => .ok (.vNum (n : Rat))
      | none => .raised
    else .ok (.vNum 2025)
  else if col = "jangka_waktu" then
    if truthy value then
      match pythonInt value with
      | some n => .ok (.vNum (n : Rat))
      | none => .raised
    else .ok (.vNum 0)
  else if chNumericCond col then
    if truthy value then
      match pythonFloat value with
      | some q => .ok (.vNum q)
      | none => .raised
    else .ok (.vNum 0)
  else if col = "latitude" ∨ col = "longitude" then
    if truthy value then
      match pythonFloat value with
      | some q => .ok (.vNum q)
      | none => .raised
    else .ok .vNull
  else if col = "tanggal_kontrak" ∨ col = "tgl_mulai_kontrak" ∨ col = "tanggal_selesai" then
    .ok value
  else if col = "created_at" ∨ col = "updated_at" then
    .ok (match value with
      | .vDatetime t (some _) => .vDatetime t none
      | v => v)
  else
    .ok (if truthy value then .vStr (pythonStr value) else .vStr "")

/-- Row of the `project_investasi` table: the values of `SYNC_COLUMNS`,
in column order (so the key `id_root` is the first entry). -/
abbrev Row : Type := List Value

/-- Key of a stored row: its `id_root` column, the first of `SYNC_COLUMNS`. -/
def rowKey (r : Row) : Value := r.headD .vNull

/-- PostgreSQL state relevant to the daemon: the rows of
`project_investasi`, each already projected onto `SYNC_COLUMNS`. -/
abbrev PgState : Type := List Row

/-- ClickHouse state: the list of row versions inserted so far.  A
ReplacingMergeTree keeps every inserted version until compaction, so the
state is a multiset-with-order of versions, not a keyed map. -/
abbrev ChState : Type := List Row

/-- Embedding of `SELECT ... FROM project_investasi WHERE id_root = %s`
with `fetchone()`: the first stored row whose key matches. -/
def fetchRow (pg : PgState) (id_root : String) : Option Row :=
  pg.find? (fun r => rowKey r = .vStr id_root)

/-- Conversion of one fetched row, `tuple(convert_value(row[i],
SYNC_COLUMNS[i]) for i in range(len(row)))`. -/
def convertRow (row : Row) : Row :=
  (row.zip SYNC_COLUMNS).map (fun p => convert_value p.1 p.2)

/-- Embedding of `sync_daemon.sync_record_to_clickhouse`: re-reads the
authoritative row for `id_root`; if absent, logs a warning and returns
`false` with the target untouched; otherwise appends the type-adapted row
version to the target and returns `true`. -/
def sync_record_to_clickhouse (pg : PgState) (ch : ChState) (id_root : String) :
    ChState × Bool :=
  match fetchRow pg id_root with
  | none => (ch, false)
  | some row => (ch ++ [convertRow row], true)

/-- Embedding of `sync_daemon.delete_from_clickhouse`:
`ALTER TABLE ... DELETE WHERE id_root = %s` removes every stored version
keyed by `id_root`. -/
def delete_from_clickhouse (ch : ChState) (id_root : String) : ChState :=
  ch.filter (fun r => rowKey r ≠ .vStr id_root)

/-- Embedding of `OPTIMIZE TABLE project_investasi FINAL` on a
ReplacingMergeTree: for each key only the most recently inserted version
survives. -/
def optimize_table : ChState → ChState
  | [] => []
  | r :: rs => if rowKey r ∈ rs.map rowKey then optimize_table rs
               else r :: optimize_table rs

/-- Embedding of `TRUNCATE TABLE project_investasi`. -/
def truncate_table (_ : ChState) : ChState := []

/-- Embedding of a bulk `INSERT INTO project_investasi ... VALUES`: the
new row versions are appended to the stored versions. -/
def chBulkInsert (ch : ChState) (rows : List Row) : ChState := ch ++ rows

/-- Embedding of `sync_daemon.full_sync`: reads every source row; if there
are none it returns early (before the TRUNCATE), otherwise it converts
each row in a loop, truncates the target and bulk-inserts the converted
rows. -/
def full_sync (pg : PgState) (ch : ChState) : ChState :=
  if pg = [] then ch
  else
    chBulkInsert (truncate_table ch)
      (pg.foldl (fun acc row => acc ++ [convertRow row]) [])

/-- Decoded shape of one `pg_notify` payload string as far as
`process_notifications` observes it: `invalid` fails `json.loads` with
`JSONDecodeError`; `nonObject` is valid JSON that is not an object (list,
number, string, ...), on which `payload.get` raises `AttributeError`;
`object` carries the decoded key/value fields. -/
inductive Payload where
  | invalid : String → Payload
  | nonObject : Payload
  | object : List (String × String) → Payload
deriving DecidableEq

/-- Python `dict` lookup on an association list (`payload.get(k)`). -/
def dictGet (fields : List (String × String)) (k : String) : Option String :=
  (fields.find? (fun p => p.1 = k)).map (fun p => p.2)

/-- Python `dict` assignment `d[k] = v`: overwrites in place if the key is
present, appends otherwise (insertion order preserved, as in CPython). -/
def dictAssign : List (String × α) → String → α → List (String × α)
  | [], k, v => [(k, v)]
  | (k', v') :: rest, k, v =>
      if k' = k then (k, v) :: rest else (k', v') :: dictAssign rest k v

/-- Outcome of the notification-draining loop in
`process_notifications`: the accumulated `pending_ids` dict (id_root →
`payload.get('operation')`) together with the payloads logged as invalid
JSON, or `raised` when an `AttributeError` escaped the loop. -/
structure DrainOut where
  pending : List (String × Option String)
  logged : List String
deriving DecidableEq

/-- The `while pg_listen_conn.notifies:` drain loop of
`process_notifications`, one step per queued payload:
`json.JSONDecodeError` is caught and logged; `payload.get` on a non-dict
raises out of the loop; an object payload is recorded under its `id_root`
when that key is present and nonempty, and silently skipped otherwise. -/
def drainLoop : List Payload → List (String × Option String) → List String →
    PyRes DrainOut
  | [], pending, logged => .ok ⟨pending, logged⟩
  | .invalid raw :: rest, pending, logged => drainLoop rest pending (logged ++ [raw])
  | .nonObject :: _, _, _ => .raised
  | .object fields :: rest, pending, logged =>
      match dictGet fields "id_root" with
      | some k =>
          if k = "" then drainLoop rest pending logged
          else drainLoop rest (dictAssign pending k (dictGet fields "operation")) logged
      | none => drainLoop rest pending logged

/-- Notification draining from an empty `pending_ids` dict, as at the top
of each `process_notifications` call. -/
def drainNotifications (payloads : List Payload) : PyRes DrainOut :=
  drainLoop payloads [] []

/-- The apply phase of `process_notifications`: for each pending id in
insertion order, a `DELETE` operation issues a keyed delete, any other
operation re-syncs the record; `synced` records whether any step reported
success. -/
def applyPending (pg : PgState) (pending : List (String × Option String))
    (ch : ChState) : ChState × Bool :=
  pending.foldl
    (fun acc kv =>
      if kv.2 = some "DELETE" then (delete_from_clickhouse acc.1 kv.1, true)
      else
        let step := sync_record_to_clickhouse pg acc.1 kv.1
        (step.1, acc.2 || step.2))
    (ch, false)

/-- Embedding of `sync_daemon.process_notifications`: drain the queued
payloads, apply the pending actions, and run `OPTIMIZE TABLE` when any
action succeeded.  The result carries the final target state and the
logged invalid payloads; `raised` models the uncaught `AttributeError`
aborting the call. -/
def process_notifications (pg : PgState) (ch : ChState) (payloads : List Payload) :
    PyRes (ChState × List String) :=
  match drainNotifications payloads with
  | .raised => .raised
  | .ok out =>
      let step := applyPending pg out.pending ch
      .ok (if step.2 then optimize_table step.1 else step.1, out.logged)

/-- Outcome of one iteration of the `while` loop in `sync_daemon.main`:
`failEarly` is an exception before `retry_count = 0` is reached (connect
or initial full sync fails), `failStreaming` an exception after the
reset, and `cleanStream` a streaming run that ends because the shutdown
flag was set. -/
inductive IterOutcome where
  | failEarly : IterOutcome
  | failStreaming : IterOutcome
  | cleanStream : IterOutcome
deriving DecidableEq

/-- Way the modelled `main` finished. -/
inductive MainResult where
  | exitedRetriesExhausted : MainResult
  | exitedCleanShutdown : MainResult
  | traceUnderdetermined : MainResult
deriving DecidableEq

/-- Embedding of the retry loop of `sync_daemon.main` over a trace of
iteration outcomes: the loop runs while `retry_count < max_retries`; an
early failure increments `retry_count`, a failure after the in-loop
`retry_count = 0` reset leaves it at `0 + 1 = 1`, and a clean stream ends
the loop via the shutdown flag.  `traceUnderdetermined` is returned when
the trace is shorter than the loop needs. -/
def mainLoop (max_retries : Nat) : List IterOutcome → Nat → MainResult
  | trace, retry_count =>
    if max_retries ≤ retry_count then .exitedRetriesExhausted
    else
      match trace with
      | [] => .traceUnderdetermined
      | .failEarly :: rest => mainLoop max_retries rest (retry_count + 1)
      | .failStreaming :: rest => mainLoop max_retries rest 1
      | .cleanStream :: _ => .exitedCleanShutdown

/-- Process exit status of the daemon for a finished `main`: `main`
returns normally on both loop exits (there is no `sys.exit` call in
`sync_daemon.py`), so the interpreter exits with status `0` either way. -/
def mainExitStatus : MainResult → Option Nat
  | .exitedRetriesExhausted => some 0
  | .exitedCleanShutdown => some 0
  | .traceUnderdetermined => none

/-- The `max_retries = 30` constant of `sync_daemon.main`. -/
def MAX_RETRIES : Nat := 30

/-- A project handed to `ClickHouseDB.insert_projects`: a dict from
column names to values; `project.get(col)` yields `None` for a missing
column. -/
abbrev Project : Type := List (String × Value)

/-- The `project.get(col)` read inside `insert_projects`, defaulting to
`None`. -/
def projGet (project : Project) (col : String) : Value :=
  ((project.find? (fun p => p.1 = col)).map (fun p => p.2)).getD .vNull

/-- Conversion of one project to a row tuple inside
`ClickHouseDB.insert_projects`: each column converted in order, an
exception aborting the whole call. -/
def insertProjectsRow (project : Project) : PyRes Row :=
  (SYNC_COLUMNS.foldl
    (fun (acc : PyRes Row) col =>
      match acc with
      | .raised => .raised
      | .ok vs =>
          match chInsertConvert col (projGet project col) with
          | .ok v => .ok (vs ++ [v])
          | .raised => .raised)
    (.ok []))

/-- The data-conversion loop of `ClickHouseDB.insert_projects`, which
runs before anything is sent to the target; a conversion exception aborts
the call before any insert happens. -/
def insertProjectsData (projects : List Project) : PyRes (List Row) :=
  projects.foldl
    (fun (acc : PyRes (List Row)) p =>
      match acc with
      | .raised => .raised
      | .ok rows =>
          match insertProjectsRow p with
          | .ok r => .ok (rows ++ [r])
          | .raised => .raised)
    (.ok [])

/-- Embedding of `src/etl/sync.py full_sync`: fetch all projects; if none,
return early (the target is not truncated); otherwise truncate, then run
`insert_projects`.  The resulting target state is paired with the
returned count, or with `raised` when a conversion exception escapes
(after the truncate, before any insert). -/
def etlFullSync (projects : List Project) (ch : ChState) : ChState × PyRes Nat :=
  if projects = [] then (ch, .ok 0)
  else
    match insertProjectsData projects with
    | .raised => (truncate_table ch, .raised)
    | .ok rows => (chBulkInsert (truncate_table ch) rows, .ok rows.length)

theorem foldl_push_map {α β : Type} (f : α → β) (l : List α) (acc : List β) :
    l.foldl (fun a x => a ++ [f x]) acc = acc ++ l.map f := by
  induction l generalizing acc with
  | nil => simp
  | cons x xs ih => simp [ih]

/-- Claim C1, counterexample: with the source holding no row for key
"k" and the target still holding a version keyed "k", the apply step
for "k" leaves the target untouched and reports failure; it does not
issue the keyed delete the claim asserts (a keyed delete would have
emptied this target). -/
theorem syncMissingRowCounterexample :
    sync_record_to_clickhouse [] [[Value.vStr "k"]] "k" = ([[Value.vStr "k"]], false) ∧
    delete_from_clickhouse [[Value.vStr "k"]] "k" = [] := by decide

/-- Claim C1, amended: when the re-read of the authoritative source
returns no row for a key scheduled as Insert/Update, the Applier logs a
warning and performs no target operation at all — no insert and no
delete — returning failure instead of raising, and the flush completes
with the target unchanged (any stale version for that key survives until
a full resync). -/
theorem syncMissingRowNoDelete (pg : PgState) (ch : ChState) (k : String)
    (h : fetchRow pg k = none) (hk : k ≠ "") :
    sync_record_to_clickhouse pg ch k = (ch, false) ∧
    process_notifications pg ch [.object [("id_root", k), ("operation", "UPDATE")]] =
      .ok (ch, []) := by
  have hs : sync_record_to_clickhouse pg ch k = (ch, false) := by
    simp [sync_record_to_clickhouse, h]
  refine ⟨hs, ?_⟩
  simp [process_notifications, drainNotifications, drainLoop, dictGet, hk, dictAssign,
    applyPending, hs]

/-- Claim C1, witness for the amended theorem at a concrete input. -/
theorem syncMissingRowNoDeleteWitness :
    sync_record_to_clickhouse [] [[Value.vStr "q"]] "q" = ([[Value.vStr "q"]], false) ∧
    process_notifications [] [[Value.vStr "q"]]
      [.object [("id_root", "q"), ("operation", "UPDATE")]] = .ok ([[Value.vStr "q"]], []) :=
  syncMissingRowNoDelete [] [[Value.vStr "q"]] "q" (by decide) (by decide)

/-- Claim C2, counterexample: a timezone-aware timestamp (offset 420
minutes) in the created_at column passes through the streaming-path Type
Adapter unchanged, still timezone-aware, so the streaming apply path does
transmit timezone-aware datetimes. -/
theorem adapterTimezoneCounterexample :
    convert_value (.vDatetime 0 (some 420)) "created_at" = .vDatetime 0 (some 420) := by
  decide

/-- Claim C2, amended: timezone-aware created_at / updated_at values are
stripped to a naive representation on the bulk insert path
(ClickHouseDB.insert_projects) only; the streaming path's convert_value
returns datetime values unchanged, preserving their timezone. -/
theorem timezoneStrippedOnBulkPathOnly (t off : Int) :
    chInsertConvert "created_at" (.vDatetime t (some off)) = .ok (.vDatetime t none) ∧
    chInsertConvert "updated_at" (.vDatetime t (some off)) = .ok (.vDatetime t none) ∧
    convert_value (.vDatetime t (some off)) "created_at" = .vDatetime t (some off) ∧
    convert_value (.vDatetime t (some off)) "updated_at" = .vDatetime t (some off) :=
  ⟨rfl, rfl, rfl, rfl⟩

/-- Claim C3, counterexample: after thirty consecutive connection
failures the main loop does terminate with the retry budget exhausted,
but the process exit status is zero (main returns normally; sync_daemon
contains no sys.exit), contradicting the claimed non-zero exit. -/
theorem retryExhaustionExitCounterexample :
    mainLoop MAX_RETRIES (List.replicate 30 .failEarly) 0 = .exitedRetriesExhausted ∧
    mainExitStatus (mainLoop MAX_RETRIES (List.replicate 30 .failEarly) 0) = some 0 := by
  decide

/-- Claim C3, amended: when the Supervisor's retry counter reaches the
fixed retry budget (30), the daemon's retry loop terminates with the
budget exhausted and the process exits with status zero — not non-zero;
the only other way the loop ends is the clean shutdown path. -/
theorem retryBudgetReachedExitsZero (trace : List IterOutcome) (rc : Nat)
    (h : MAX_RETRIES ≤ rc) :
    mainLoop MAX_RETRIES trace rc = .exitedRetriesExhausted ∧
    mainExitStatus (mainLoop MAX_RETRIES trace rc) = some 0 := by
  have hm : mainLoop MAX_RETRIES trace rc = .exitedRetriesExhausted := by
    rw [mainLoop.eq_def]
    exact if_pos h
  exact ⟨hm, by rw [hm]; rfl⟩

/-- Claim C3, witness for the amended theorem at a concrete input. -/
theorem retryBudgetReachedExitsZeroWitness :
    mainLoop MAX_RETRIES [] 30 = .exitedRetriesExhausted ∧
    mainExitStatus (mainLoop MAX_RETRIES [] 30) = some 0 :=
  retryBudgetReachedExitsZero [] 30 (by decide)

/-- Claim C4, counterexample: a full load over an empty source leaves a
non-empty target untouched (the early return fires before the TRUNCATE),
on both the daemon path and the etl path, so the target does not end up
with zero rows. -/
theorem fullSyncEmptySourceCounterexample :
    full_sync [] [[Value.vStr "k"]] = [[Value.vStr "k"]] ∧
    ([[Value.vStr "k"]] : ChState) ≠ [] ∧
    etlFullSync [] [[Value.vStr "k"]] = ([[Value.vStr "k"]], .ok 0) := by decide

/-- Claim C4, amended: a full load over a non-empty source truncates the
target and bulk-inserts every type-adapted source row, leaving the target
exactly the adapted source contents; over an empty source both full-sync
paths return before truncating, leaving the prior target contents in
place. -/
theorem fullSyncTruncateThenReload (pg : PgState) (ch : ChState) :
    full_sync pg ch = (if pg = [] then ch else pg.map convertRow) ∧
    etlFullSync [] ch = (ch, .ok 0) := by
  refine ⟨?_, rfl⟩
  by_cases hp : pg = []
  · simp [full_sync, hp]
  · simp [full_sync, hp, chBulkInsert, truncate_table, foldl_push_map]

/-- The payloads the drain loop logs: exactly those failing JSON decoding. -/
def invalidPayloadLog : Payload → Option String
  | .invalid raw => some raw
  | _ => none

theorem drainLoop_ok_of_no_nonObject (payloads : List Payload) :
    ∀ (pending : List (String × Option String)) (logged : List String),
      (∀ p ∈ payloads, p ≠ .nonObject) →
      ∃ pend, drainLoop payloads pending logged =
        .ok ⟨pend, logged ++ payloads.filterMap invalidPayloadLog⟩ := by
  induction payloads with
  | nil =>
      intro pending logged _
      exact ⟨pending, by simp [drainLoop]⟩
  | cons p rest ih =>
      intro pending logged h
      have hrest : ∀ q ∈ rest, q ≠ .nonObject :=
        fun q hq => h q (List.mem_cons_of_mem _ hq)
      cases p with
      | invalid raw =>
          obtain ⟨pend, hp⟩ := ih pending (logged ++ [raw]) hrest
          refine ⟨pend, ?_⟩
          simp only [drainLoop, hp, List.filterMap_cons, invalidPayloadLog]
          simp
      | nonObject => exact absurd rfl (h _ (List.mem_cons_self _ _))
      | object fields =>
          cases hg : dictGet fields "id_root" with
          | none =>
              obtain ⟨pend, hp⟩ := ih pending logged hrest
              exact ⟨pend, by simp [drainLoop, hg, hp, invalidPayloadLog]⟩
          | some k =>
              by_cases hk : k = ""
              · subst hk
                obtain ⟨pend, hp⟩ := ih pending logged hrest
                exact ⟨pend, by simp [drainLoop, hg, hp, invalidPayloadLog]⟩
              · obtain ⟨pend, hp⟩ :=
                  ih (dictAssign pending k (dictGet fields "operation")) logged hrest
                exact ⟨pend, by simp [drainLoop, hg, hk, hp, invalidPayloadLog]⟩

/-- Claim C5, counterexample: a payload that decodes to valid JSON that is
not an object (a list, say) raises an uncaught AttributeError inside the
drain loop, aborting the whole process_notifications call — so such a
malformed payload does terminate the streaming session, rather than being
logged and dropped. -/
theorem malformedPayloadCounterexample :
    drainNotifications [Payload.nonObject] = .raised ∧
    process_notifications [] [] [Payload.nonObject] = .raised := by decide

/-- Claim C5, amended: payloads that fail JSON decoding are logged and
dropped and the rest of the batch is processed (for any batch free of
non-object JSON payloads, draining succeeds and logs exactly the
undecodable ones); but a payload that decodes to non-object JSON raises
out of the drain loop, aborting the batch and ending the streaming
session via the supervisor. -/
theorem malformedPayloadHandling (payloads rest : List Payload)
    (pending : List (String × Option String)) (logged : List String)
    (h : ∀ p ∈ payloads, p ≠ .nonObject) :
    (∃ pend, drainNotifications payloads =
      .ok ⟨pend, payloads.filterMap invalidPayloadLog⟩) ∧
    drainLoop (.nonObject :: rest) pending logged = .raised := by
  refine ⟨?_, rfl⟩
  obtain ⟨pend, hp⟩ := drainLoop_ok_of_no_nonObject payloads [] [] h
  exact ⟨pend, by simpa [drainNotifications] using hp⟩

/-- Claim C5, witness for the amended theorem at concrete inputs. -/
theorem malformedPayloadHandlingWitness :
    (∃ pend, drainNotifications [Payload.invalid "bad",
        Payload.object [("id_root", "k"), ("operation", "DELETE")]] =
      .ok ⟨pend, [Payload.invalid "bad",
        Payload.object [("id_root", "k"), ("operation", "DELETE")]].filterMap
          invalidPayloadLog⟩) ∧
    drainLoop [Payload.nonObject] [] [] = .raised :=
  malformedPayloadHandling
    [Payload.invalid "bad", Payload.object [("id_root", "k"), ("operation", "DELETE")]]
    [] [] [] (by decide)

/-- Python dict lookup on the accumulated pending map. -/
def dictLookup {α : Type} (m : List (String × α)) (k : String) : Option α :=
  (m.find? (fun p => p.1 = k)).map (fun p => p.2)

theorem dictLookup_assign_self {α : Type} (m : List (String × α)) (k : String) (v : α) :
    dictLookup (dictAssign m k v) k = some v := by
  induction m with
  | nil => simp [dictAssign, dictLookup]
  | cons p rest ih =>
      obtain ⟨q, w⟩ := p
      by_cases h : q = k
      · subst h; simp [dictAssign, dictLookup]
      · simp only [dictAssign, if_neg h]
        simpa [dictLookup, List.find?, h] using ih

theorem dictLookup_assign_other {α : Type} (m : List (String × α)) (k q : String)
    (v : α) (h : q ≠ k) :
    dictLookup (dictAssign m q v) k = dictLookup m k := by
  induction m with
  | nil => simp [dictAssign, dictLookup, h]
  | cons p rest ih =>
      obtain ⟨q', w⟩ := p
      by_cases h' : q' = q
      · subst h'; simp [dictAssign, dictLookup, List.find?, h]
      · simp only [dictAssign, if_neg h']
        by_cases h'' : q' = k
        · subst h''; simp [dictLookup, List.find?]
        · simpa [dictLookup, List.find?, h''] using ih

/-- Operation of the last event for key k in arrival order, if any: the
specification-side description of the debounce window's winner. -/
def lastOpFor (k : String) : List (String × String) → Option String
  | [] => none
  | e :: rest =>
      match lastOpFor k rest with
      | some o => some o
      | none => if e.1 = k then some e.2 else none

theorem foldl_assign_lastOp (evs : List (String × String)) :
    ∀ (m : List (String × Option String)) (k : String),
      dictLookup (evs.foldl (fun m e => dictAssign m e.1 (some e.2)) m) k =
        match lastOpFor k evs with
        | some o => some (some o)
        | none => dictLookup m k := by
  induction evs with
  | nil => intro m k; simp [lastOpFor]
  | cons e rest ih =>
      intro m k
      simp only [List.foldl_cons]
      rw [ih]
      cases hl : lastOpFor k rest with
      | some o => simp [lastOpFor, hl]
      | none =>
          by_cases he : e.1 = k
          · rw [lastOpFor]
            simp only [hl, he]
            rw [← he, dictLookup_assign_self]
            simp
          · rw [lastOpFor]
            simp only [hl, if_neg he]
            exact dictLookup_assign_other m k e.1 (some e.2) he

/-- Wire form of a well-formed change event, as produced by the source's
notify trigger: a JSON object with id_root and operation fields. -/
def eventPayload (e : String × String) : Payload :=
  .object [("id_root", e.1), ("operation", e.2)]

theorem drainLoop_event_cons (e : String × String) (rest : List Payload)
    (pending : List (String × Option String)) (logged : List String) (he : e.1 ≠ "") :
    drainLoop (eventPayload e :: rest) pending logged =
      drainLoop rest (dictAssign pending e.1 (some e.2)) logged := by
  have h1 : dictGet [("id_root", e.1), ("operation", e.2)] "id_root" = some e.1 := rfl
  have h2 : dictGet [("id_root", e.1), ("operation", e.2)] "operation" = some e.2 := rfl
  simp only [eventPayload, drainLoop, h1, h2]
  rw [if_neg he]

theorem drainLoop_eventPayloads (evs : List (String × String)) :
    ∀ (pending : List (String × Option String)) (logged : List String),
      (∀ e ∈ evs, e.1 ≠ "") →
      drainLoop (evs.map eventPayload) pending logged =
        .ok ⟨evs.foldl (fun m e => dictAssign m e.1 (some e.2)) pending, logged⟩ := by
  induction evs with
  | nil => intro pending logged _; simp [drainLoop]
  | cons e rest ih =>
      intro pending logged h
      have he : e.1 ≠ "" := h e (List.mem_cons_self _ _)
      have hrest : ∀ x ∈ rest, x.1 ≠ "" := fun x hx => h x (List.mem_cons_of_mem _ hx)
      rw [List.map_cons, drainLoop_event_cons e _ _ _ he, List.foldl_cons]
      exact ih _ _ hrest

/-- Claim C6: events drained within one debounce window flush to a map
binding each key to the operation of its last event in arrival order
(last-arrival-wins); in particular Update(K) then Delete(K) flush to a
single Delete action for K. -/
theorem flushedMapLastArrivalWins (evs : List (String × String)) (k : String)
    (h : ∀ e ∈ evs, e.1 ≠ "") :
    drainNotifications (evs.map eventPayload) =
      .ok ⟨evs.foldl (fun m e => dictAssign m e.1 (some e.2)) [], []⟩ ∧
    dictLookup (evs.foldl (fun m e => dictAssign m e.1 (some e.2)) []) k =
      (lastOpFor k evs).map (fun o => some o) := by
  refine ⟨drainLoop_eventPayloads evs [] [] h, ?_⟩
  rw [foldl_assign_lastOp]
  cases lastOpFor k evs <;> simp [dictLookup]

/-- Claim C6, witness: Update(K) then Delete(K) inside one window flush to
the single pending action Delete for K. -/
theorem flushedMapLastArrivalWinsWitness :
    drainNotifications ([("K", "UPDATE"), ("K", "DELETE")].map eventPayload) =
      .ok ⟨[("K", some "DELETE")], []⟩ ∧
    dictLookup [("K", some "DELETE")] "K" = some (some "DELETE") := by
  have h := flushedMapLastArrivalWins [("K", "UPDATE"), ("K", "DELETE")] "K" (by decide)
  exact ⟨h.1.trans (by decide), by decide⟩

theorem optimize_append_dup (l : List Row) (r : Row) :
    optimize_table (l ++ [r, r]) = optimize_table (l ++ [r]) := by
  induction l with
  | nil => simp [optimize_table]
  | cons x xs ih =>
      have hiff : (rowKey x ∈ (xs ++ [r, r]).map rowKey) ↔
          (rowKey x ∈ (xs ++ [r]).map rowKey) := by
        simp [List.map_append]
      simp only [List.cons_append, optimize_table, List.append_eq, ih, hiff]

/-- Claim C7: for a fixed authoritative source state, applying a key's
Insert/Update action twice in sequence yields, after deduplication by
key, the same target state as applying it once — the applier re-reads the
authoritative row, so the second application appends an identical version
that compaction collapses. -/
theorem applyInsertUpdateIdempotent (pg : PgState) (ch : ChState) (k : String) :
    optimize_table (sync_record_to_clickhouse pg
        (sync_record_to_clickhouse pg ch k).1 k).1 =
      optimize_table (sync_record_to_clickhouse pg ch k).1 := by
  cases hf : fetchRow pg k with
  | none => simp [sync_record_to_clickhouse, hf]
  | some row =>
      simp only [sync_record_to_clickhouse, hf]
      rw [List.append_assoc]
      exact optimize_append_dup ch (convertRow row)

/-- Claim C8, counterexample: a non-empty value outside the enum passes
through the streaming-path Type Adapter unchanged, so the adapted value
is an out-of-enum value, contradicting the claim for invalid values. -/
theorem enumDefaultCounterexample :
    convert_value (.vStr "Bogus") "type_investasi" = .vStr "Bogus" ∧
    Value.vStr "Bogus" ∉ [Value.vStr "Murni", Value.vStr "Multi Year",
      Value.vStr "Carry Forward"] := by decide

/-- Claim C8, amended: the streaming-path adapter substitutes the enum
default only for absent (null) or empty-string values and passes any
other value through unchanged, including out-of-enum values; the bulk
path's insert_projects substitutes the default for every value outside
the enum, so only there is the adapted value always an enum member. -/
theorem enumDefaultingPerPath (v : Value) :
    (convert_value v "type_investasi" =
      if v = .vNull ∨ v = .vStr "" then .vStr "Murni" else v) ∧
    (convert_value v "status_issue" =
      if v = .vNull ∨ v = .vStr "" then .vStr "Open" else v) ∧
    (∃ w, chInsertConvert "type_investasi" v = .ok w ∧
      w ∈ [Value.vStr "Murni", Value.vStr "Multi Year", Value.vStr "Carry Forward"]) ∧
    (∃ w, chInsertConvert "status_issue" v = .ok w ∧
      w ∈ [Value.vStr "Open", Value.vStr "Closed"]) := by
  refine ⟨rfl, rfl, ?_, ?_⟩
  · by_cases hv : v = .vStr "Murni" ∨ v = .vStr "Multi Year" ∨ v = .vStr "Carry Forward"
    · refine ⟨v, by simp [chInsertConvert, hv], ?_⟩
      rcases hv with h | h | h <;> simp [h]
    · exact ⟨.vStr "Murni", by simp [chInsertConvert, hv], by simp⟩
  · by_cases hv : v = .vStr "Open" ∨ v = .vStr "Closed"
    · refine ⟨v, by simp [chInsertConvert, hv], ?_⟩
      rcases hv with h | h <;> simp [h]
    · exact ⟨.vStr "Open", by simp [chInsertConvert, hv], by simp⟩

theorem decimal_cols_disjoint : ∀ c ∈ DECIMAL_COLUMNS,
    c ∉ ["type_investasi", "status_issue", "tahun_usulan", "tahun_rkap",
      "jangka_waktu"] := by decide

theorem decimal_cols_numericCond : ∀ c ∈ DECIMAL_COLUMNS, chNumericCond c = true := by
  decide

/-- Claim C9, counterexample: a non-empty, non-numeric value in a numeric
column is coerced to zero by the streaming-path adapter, but on the bulk
insert path it raises an uncaught conversion error that aborts the whole
insert — it is neither coerced to zero nor merely skipped there. -/
theorem numericCoercionCounterexample :
    convert_value (.vStr "abc") "kebutuhan_dana" = .vNum 0 ∧
    chInsertConvert "kebutuhan_dana" (.vStr "abc") = .raised ∧
    insertProjectsRow [("kebutuhan_dana", Value.vStr "abc")] = .raised := by decide

/-- Claim C9, amended: for every numeric (decimal) column, the
streaming-path adapter coerces a missing or non-convertible value to zero
(never null, never skipped); the bulk insert path coerces only falsy
values (null, empty string, zero) to zero and raises an uncaught
conversion error on a truthy non-convertible value. -/
theorem numericCoercionPerPath (c : String) (v : Value) (hc : c ∈ DECIMAL_COLUMNS) :
    (convert_value v c =
      match pythonFloat v with
      | some q => Value.vNum q
      | none => Value.vNum 0) ∧
    (chInsertConvert c v =
      if truthy v then
        match pythonFloat v with
        | some q => PyRes.ok (Value.vNum q)
        | none => PyRes.raised
      else .ok (.vNum 0)) := by
  have hnot := decimal_cols_disjoint c hc
  simp only [List.mem_cons, List.not_mem_nil, or_false, not_or] at hnot
  obtain ⟨h1, h2, h3, h4, h5⟩ := hnot
  have hnum := decimal_cols_numericCond c hc
  constructor
  · simp only [convert_value, if_neg h1, if_neg h2, if_pos hc]
    by_cases hv : v = .vNull
    · subst hv; simp [pythonFloat]
    · rw [if_neg hv]
  · simp only [chInsertConvert, if_neg h1, if_neg h2,
      if_neg (not_or.mpr ⟨h3, h4⟩), if_neg h5, if_pos hnum]

/-- Claim C9, witness for the amended theorem at a concrete input. -/
theorem numericCoercionPerPathWitness :
    convert_value .vNull "kebutuhan_dana" = .vNum 0 ∧
    chInsertConvert "kebutuhan_dana" .vNull = .ok (.vNum 0) := by
  have h := numericCoercionPerPath "kebutuhan_dana" .vNull (by decide)
  exact ⟨h.1.trans (by decide), h.2.trans (by decide)⟩

/-- Claim C10: an object payload lacking the id_root key, or carrying an
empty-string id_root, is skipped silently: the pending map and the log
are unchanged, the rest of the batch proceeds, and the whole
process_notifications run behaves as if the payload were absent (no
target operation happens for it). -/
theorem missingIdRootSilentlySkipped (pg : PgState) (ch : ChState)
    (fields : List (String × String)) (rest : List Payload)
    (pending : List (String × Option String)) (logged : List String)
    (h : dictGet fields "id_root" = none ∨ dictGet fields "id_root" = some "") :
    drainLoop (.object fields :: rest) pending logged = drainLoop rest pending logged ∧
    process_notifications pg ch (.object fields :: rest) =
      process_notifications pg ch rest := by
  have hd : ∀ (p : List (String × Option String)) (lg : List String),
      drainLoop (.object fields :: rest) p lg = drainLoop rest p lg := by
    intro p lg
    rcases h with h | h <;> simp [drainLoop, h]
  exact ⟨hd pending logged,
    by simp only [process_notifications, drainNotifications, hd]⟩

/-- Claim C10, witness at a concrete payload lacking id_root. -/
theorem missingIdRootSilentlySkippedWitness :
    drainLoop [Payload.object [("operation", "DELETE")]] [] [] = drainLoop [] [] [] ∧
    process_notifications [] [] [Payload.object [("operation", "DELETE")]] =
      process_notifications [] [] [] :=
  missingIdRootSilentlySkipped [] [] [("operation", "DELETE")] [] [] [] (by decide)
